import Mathlib

/-!
Shallow embedding of the real-time synchronization and simulation core of the
fleet-dispatch backend (files `src/socket.js`, `src/server.js`,
`src/services/reportsSocketService.js`, `src/utils/reportsHelper.js`), together
with theorems settling the behavioural claims about it.

JavaScript runtime values that flow through the validator and the snapshot
cache are modelled by the inductive type `JSVal`; drivers touched by the
simulation tick are modelled by the `Driver` structure mirroring the mongoose
schema in `src/models/TRdriverModel.js`.
-/

/-- Model of a JavaScript runtime value as it flows through the reports
validator and snapshot cache. `undef` is `undefined`, `jsnull` is `null`;
numbers are modelled as rationals (no NaN value is needed by the code paths
embedded here, and `undef`/failed coercions stand in for NaN where relevant). -/
inductive JSVal where
  | undef
  | jsnull
  | bool (b : Bool)
  | num (q : Rat)
  | str (s : String)
  | arr (xs : List JSVal)
  | obj (fields : List (String × JSVal))

namespace JSVal

/-- JavaScript truthiness: `undefined`, `null`, `false`, `0` and `""` are
falsy; every object and array (even empty) is truthy. -/
def jsTruthy : JSVal → Bool
  | .undef => false
  | .jsnull => false
  | .bool b => b
  | .num q => !(q == 0)
  | .str s => !(s == "")
  | .arr _ => true
  | .obj _ => true

/-- JavaScript `typeof x === "object"`: true for `null`, arrays and plain
objects, false for `undefined`, booleans, numbers and strings. -/
def typeofIsObject : JSVal → Bool
  | .jsnull => true
  | .arr _ => true
  | .obj _ => true
  | _ => false

/-- Is this value `undefined`? (used to model JavaScript `!== undefined`). -/
def isUndef : JSVal → Bool
  | .undef => true
  | _ => false

/-- Models `Array.isArray(x)`. -/
def isArrayVal : JSVal → Bool
  | .arr _ => true
  | _ => false

/-- Is this value a number? (the spec's "numeric field" notion). -/
def isNum : JSVal → Bool
  | .num _ => true
  | _ => false

/-- Is this value a plain object? -/
def isObj : JSVal → Bool
  | .obj _ => true
  | _ => false

/-- JavaScript property read `data.k`: looks the key up in an object's field
list; on any non-object (including arrays, which carry none of the property
names used by the validator) it yields `undefined`. -/
def objGet : JSVal → String → JSVal
  | .obj fields, k =>
    match fields.find? (fun p => p.1 == k) with
    | some p => p.2
    | none => .undef
  | _, _ => .undef

end JSVal

open JSVal

/-- Decimal parsing fragment of JavaScript `ToNumber` on strings: trimmed
empty string is 0; an optional sign followed by digits (and an optional
fractional part) parses to the corresponding rational; anything else is NaN,
modelled as `none`. -/
def jsStringToNumber (s : String) : Option Rat :=
  let t := s.trim
  if t == "" then some 0
  else
    let (sign, body) :=
      if t.startsWith "-" then ((-1 : Rat), t.drop 1)
      else if t.startsWith "+" then ((1 : Rat), t.drop 1)
      else ((1 : Rat), t)
    let digitsVal (cs : List Char) : Nat :=
      cs.foldl (fun a c => a * 10 + (c.toNat - 48)) 0
    match body.split (· == '.') with
    | [w] =>
      if w.data ≠ [] ∧ w.data.all Char.isDigit then
        some (sign * (digitsVal w.data : Rat))
      else none
    | [w, f] =>
      if (w.data ≠ [] ∨ f.data ≠ []) ∧ w.data.all Char.isDigit ∧ f.data.all Char.isDigit then
        some (sign * ((digitsVal w.data : Rat) + (digitsVal f.data : Rat) / ((10 : Rat) ^ f.data.length)))
      else none
    | _ => none

/-- Models the JavaScript comparison `x > 0` as used by the summary
meaningfulness check in `broadcastReportsSummary`. Primitive operands follow
`ToNumber` coercion (`null` → 0, `undefined` → NaN, strings parsed); object
and array operands, which JavaScript would coerce through `ToPrimitive`
(a plain object gives `"[object Object]"`, hence NaN), are treated as not
greater than zero. -/
def jsGtZero : JSVal → Bool
  | .num q => decide (0 < q)
  | .bool b => b
  | .str s =>
    match jsStringToNumber s with
    | some q => decide (0 < q)
    | none => false
  | _ => false

/-- Embedding of `ReportsSocketService.isValidData(data, type)`
(`src/services/reportsSocketService.js` lines 198–224): rejects non-objects,
then applies the per-feed rule — `summary` needs `totalEarnings` and
`totalRides` defined, `earnings` needs a truthy `chartData` that is an array
and a truthy `summary`, `drivers` needs an array `tableData`, `rides` needs an
array `chartData`; unknown feed kinds are accepted. -/
def isValidData (data : JSVal) (type : String) : Bool :=
  if !data.jsTruthy || !data.typeofIsObject then false
  else
    match type with
    | "summary" =>
      !(data.objGet "totalEarnings").isUndef && !(data.objGet "totalRides").isUndef
    | "earnings" =>
      (data.objGet "chartData").jsTruthy && (data.objGet "chartData").isArrayVal
        && (data.objGet "summary").jsTruthy
    | "drivers" =>
      (data.objGet "tableData").jsTruthy && (data.objGet "tableData").isArrayVal
    | "rides" =>
      (data.objGet "chartData").jsTruthy && (data.objGet "chartData").isArrayVal
    | _ => true

/-- The service's `lastDataCache`, a `Map` from feed key to last stored
payload, modelled as an association list with `Map.set` overwrite semantics. -/
abbrev ReportsCache := List (String × JSVal)

/-- `Map.prototype.set`: overwrite the value in place if the key is present,
otherwise append the new binding. -/
def cacheSet (c : ReportsCache) (k : String) (v : JSVal) : ReportsCache :=
  if c.any (fun p => p.1 == k) then
    c.map (fun p => if p.1 == k then (k, v) else p)
  else c ++ [(k, v)]

/-- `Map.prototype.get`, returning `none` for a missing key. -/
def cacheGet (c : ReportsCache) (k : String) : Option JSVal :=
  (c.find? (fun p => p.1 == k)).map (fun p => p.2)

/-- A socket emission `socket.emit(event, payload)`. -/
structure SocketEmit where
  event : String
  payload : JSVal

/-- Embedding of the `mockRes.json` callback of the `requestEarningsReport`
handler (`src/services/reportsSocketService.js` lines 39–61): if the incoming
payload validates as `earnings` it is cached under `"earningsReport"` and sent
to the requesting socket; otherwise the cache is untouched and the previously
cached payload (if any, and truthy) is sent instead. Returns the new cache and
the emissions to the requesting socket. -/
def requestEarningsJson (cache : ReportsCache) (data : JSVal) :
    ReportsCache × List SocketEmit :=
  if isValidData data "earnings" then
    (cacheSet cache "earningsReport" data, [⟨"earningsReportData", data⟩])
  else
    match cacheGet cache "earningsReport" with
    | some cached =>
      if cached.jsTruthy then (cache, [⟨"earningsReportData", cached⟩])
      else (cache, [])
    | none => (cache, [])

/-- Embedding of the `mockRes.json` callback of `broadcastReportsSummary`
(`src/services/reportsSocketService.js` lines 302–319): the payload is cached
under `"reportsSummary"` and broadcast only when it validates as `summary`
and is meaningful (`totalEarnings > 0 || totalRides > 0`); otherwise the cache
is untouched and nothing is broadcast. Returns the new cache and the broadcast
payload, if any. -/
def broadcastSummaryJson (cache : ReportsCache) (data : JSVal) :
    ReportsCache × Option JSVal :=
  if isValidData data "summary"
      && (jsGtZero (data.objGet "totalEarnings") || jsGtZero (data.objGet "totalRides")) then
    (cacheSet cache "reportsSummary" data, some data)
  else
    (cache, none)

/-- An array value is truthy in JavaScript. -/
theorem isArrayVal_jsTruthy {v : JSVal} (h : v.isArrayVal = true) : v.jsTruthy = true := by
  cases v <;> simp_all [JSVal.isArrayVal, JSVal.jsTruthy]

/-- Claim C2 counterexample: the validator accepts a `summary` payload whose
`totalEarnings` is the non-numeric string "N/A" (and whose `totalRides` is
`null`), because `isValidData` only tests that the fields are not `undefined`;
the claimed rule "valid iff it has numeric `totalEarnings` and `totalRides`"
is therefore false at this input. -/
theorem claim_C2_counterexample :
    isValidData (JSVal.obj [("totalEarnings", JSVal.str "N/A"), ("totalRides", JSVal.jsnull)]) "summary" = true
    ∧ (JSVal.objGet (JSVal.obj [("totalEarnings", JSVal.str "N/A"), ("totalRides", JSVal.jsnull)]) "totalEarnings").isNum = false
    ∧ (JSVal.objGet (JSVal.obj [("totalEarnings", JSVal.str "N/A"), ("totalRides", JSVal.jsnull)]) "totalRides").isNum = false := by
  refine ⟨rfl, rfl, rfl⟩

/-- Claim C2 amended: `isValidData` accepts a `summary` payload exactly when it
is an object or array whose `totalEarnings` and `totalRides` fields are
defined — any defined value, numeric or not, is accepted; and it accepts an
`earnings` payload exactly when it is an object or array whose `chartData` is
an array (possibly empty) and whose `summary` is truthy (so `null`, `0`, `""`
and `false` summaries are rejected, not merely `null`). In particular
`{chartData: [], summary: {}}` is valid for `earnings`, and payloads missing a
required field are rejected. -/
theorem claim_C2_amended (d : JSVal) :
    (isValidData d "summary" = true ↔
      ((d.isArrayVal || d.isObj) = true
        ∧ (d.objGet "totalEarnings").isUndef = false
        ∧ (d.objGet "totalRides").isUndef = false))
    ∧ (isValidData d "earnings" = true ↔
      ((d.isArrayVal || d.isObj) = true
        ∧ (d.objGet "chartData").isArrayVal = true
        ∧ (d.objGet "summary").jsTruthy = true)) := by
  constructor
  · cases d <;>
      simp [isValidData, JSVal.jsTruthy, JSVal.typeofIsObject, JSVal.isObj,
        JSVal.isArrayVal, JSVal.objGet, JSVal.isUndef]
  · cases d <;>
      simp [isValidData, JSVal.jsTruthy, JSVal.typeofIsObject, JSVal.isObj,
        JSVal.isArrayVal, JSVal.objGet, JSVal.isUndef] <;>
    · intro h1 h2
      first
        | exact isArrayVal_jsTruthy h1
        | exact isArrayVal_jsTruthy h2

/-- Witness for C2's amended theorem at the minimal well-formed earnings
payload from the spec, `{chartData: [], summary: {}}`. -/
theorem claim_C2_amended_witness :
    isValidData (JSVal.obj [("chartData", JSVal.arr []), ("summary", JSVal.obj [])]) "earnings" = true := by
  have h := (claim_C2_amended (JSVal.obj [("chartData", JSVal.arr []), ("summary", JSVal.obj [])])).2
  exact h.mpr ⟨rfl, rfl, rfl⟩

/-- Claim C3: commits to the snapshot cache happen only when validation
passes. If a feed holds a cached value, then processing any invalid payload —
through the `requestEarningsReport` handler for the `earningsReport` feed, or
through the `broadcastReportsSummary` cycle for the `reportsSummary` feed —
leaves the whole cache unchanged, and a subsequent get still returns the
previously cached value. -/
theorem claim_C3 (cache : ReportsCache) (V W I J : JSVal)
    (hV : cacheGet cache "earningsReport" = some V)
    (hW : cacheGet cache "reportsSummary" = some W)
    (hI : isValidData I "earnings" = false)
    (hJ : isValidData J "summary" = false) :
    (requestEarningsJson cache I).1 = cache
    ∧ cacheGet (requestEarningsJson cache I).1 "earningsReport" = some V
    ∧ (broadcastSummaryJson cache J).1 = cache
    ∧ cacheGet (broadcastSummaryJson cache J).1 "reportsSummary" = some W := by
  have h1 : (requestEarningsJson cache I).1 = cache := by
    unfold requestEarningsJson
    rw [hI]
    simp only [Bool.false_eq_true, if_false]
    cases h : cacheGet cache "earningsReport" with
    | none => rfl
    | some cached => by_cases hc : cached.jsTruthy = true <;> simp [hc]
  have h2 : (broadcastSummaryJson cache J).1 = cache := by
    unfold broadcastSummaryJson
    rw [hJ]
    simp
  exact ⟨h1, by rw [h1]; exact hV, h2, by rw [h2]; exact hW⟩

/-- Concrete cache used to witness claim C3: a valid earnings payload and a
valid summary payload are already cached. -/
def c3CacheEx : ReportsCache :=
  [("earningsReport", JSVal.obj [("chartData", JSVal.arr []), ("summary", JSVal.obj [])]),
   ("reportsSummary", JSVal.obj [("totalEarnings", JSVal.num 5), ("totalRides", JSVal.num 2)])]

/-- Witness for claim C3: with both feeds cached, processing the invalid
payload `null` through either path leaves the cache unchanged and both gets
still return the cached values. -/
theorem claim_C3_witness :
    isValidData JSVal.jsnull "earnings" = false
    ∧ isValidData JSVal.jsnull "summary" = false
    ∧ (requestEarningsJson c3CacheEx JSVal.jsnull).1 = c3CacheEx
    ∧ cacheGet (requestEarningsJson c3CacheEx JSVal.jsnull).1 "earningsReport"
        = some (JSVal.obj [("chartData", JSVal.arr []), ("summary", JSVal.obj [])])
    ∧ (broadcastSummaryJson c3CacheEx JSVal.jsnull).1 = c3CacheEx
    ∧ cacheGet (broadcastSummaryJson c3CacheEx JSVal.jsnull).1 "reportsSummary"
        = some (JSVal.obj [("totalEarnings", JSVal.num 5), ("totalRides", JSVal.num 2)]) := by
  have h := claim_C3 c3CacheEx _ _ JSVal.jsnull JSVal.jsnull rfl rfl rfl rfl
  exact ⟨rfl, rfl, h.1, h.2.1, h.2.2.1, h.2.2.2⟩

/-- A JavaScript object literal, as an ordered field list. -/
abbrev JSObj := List (String × JSVal)

/-- Object field lookup (first matching key). -/
def lookupField (fs : JSObj) (k : String) : Option JSVal :=
  (fs.find? (fun p => p.1 == k)).map (fun p => p.2)

/-- JavaScript spread-then-assign `{...fs, k: v}`: the value of `k` is
replaced in place when the key is present, otherwise the binding is appended
at the end. -/
def objSetField (fs : JSObj) (k : String) (v : JSVal) : JSObj :=
  if fs.any (fun p => p.1 == k) then
    fs.map (fun p => if p.1 == k then (k, v) else p)
  else fs ++ [(k, v)]

/-- Auxiliary: after replacing every binding of key `k` by `(k, v)`, searching
for `k` finds `(k, v)` whenever `k` occurred. -/
theorem find?_map_replace_same (k : String) (v : JSVal) :
    ∀ fs : JSObj, fs.any (fun p => p.1 == k) = true →
      (fs.map (fun p => if p.1 == k then (k, v) else p)).find? (fun p => p.1 == k) = some (k, v) := by
  intro fs
  induction fs with
  | nil => intro h; simp at h
  | cons p rest ih =>
    intro h
    by_cases hp : p.1 = k
    · have hfp : (if (p.1 == k) = true then ((k, v) : String × JSVal) else p) = (k, v) := by
        simp [hp]
      simp only [List.map_cons, hfp, List.find?_cons, beq_self_eq_true]
    · have hb : (p.1 == k) = false := by simp [hp]
      have hfp : (if (p.1 == k) = true then ((k, v) : String × JSVal) else p) = p := by
        simp [hb]
      have h' : rest.any (fun p => p.1 == k) = true := by
        simpa [List.any_cons, hb] using h
      rw [List.map_cons, hfp, List.find?_cons, hb]
      exact ih h'

/-- Auxiliary: replacing the bindings of key `k` does not affect the search
for a different key `k'`. -/
theorem find?_map_replace_other (k k' : String) (v : JSVal) (h : k' ≠ k) :
    ∀ fs : JSObj,
      (fs.map (fun p => if p.1 == k then (k, v) else p)).find? (fun p => p.1 == k')
        = fs.find? (fun p => p.1 == k') := by
  have hbkk' : ((k : String) == k') = false := by
    simp only [beq_eq_false_iff_ne, ne_eq]
    exact fun hk => h hk.symm
  intro fs
  induction fs with
  | nil => rfl
  | cons p rest ih =>
    by_cases hp : p.1 = k
    · have hfp : (if (p.1 == k) = true then ((k, v) : String × JSVal) else p) = (k, v) := by
        simp [hp]
      have hpk : (p.1 == k') = false := by rw [hp]; exact hbkk'
      simp only [List.map_cons, hfp, List.find?_cons, hbkk', hpk]
      exact ih
    · have hb : (p.1 == k) = false := by simp [hp]
      have hfp : (if (p.1 == k) = true then ((k, v) : String × JSVal) else p) = p := by
        simp [hb]
      simp only [List.map_cons, hfp, List.find?_cons]
      cases hpk : (p.1 == k') <;> simp only [ih]

/-- After setting key `k`, looking up `k` yields the new value. -/
theorem lookupField_objSetField_same (fs : JSObj) (k : String) (v : JSVal) :
    lookupField (objSetField fs k v) k = some v := by
  unfold objSetField
  by_cases h : fs.any (fun p => p.1 == k) = true
  · rw [if_pos h]
    unfold lookupField
    rw [find?_map_replace_same k v fs h]
    rfl
  · rw [if_neg h]
    have hnone : fs.find? (fun p => p.1 == k) = none := by
      rw [List.find?_eq_none]
      intro x hx
      exact fun hxk => h (List.any_of_mem hx hxk)
    unfold lookupField
    rw [List.find?_append, hnone]
    simp [List.find?_cons]

/-- Setting key `k` does not change the lookup of any other key. -/
theorem lookupField_objSetField_other (fs : JSObj) (k : String) (v : JSVal)
    (k' : String) (h : k' ≠ k) :
    lookupField (objSetField fs k v) k' = lookupField fs k' := by
  have hbkk' : ((k : String) == k') = false := by
    simp only [beq_eq_false_iff_ne, ne_eq]
    exact fun hk => h hk.symm
  unfold objSetField
  by_cases hany : fs.any (fun p => p.1 == k) = true
  · rw [if_pos hany]
    unfold lookupField
    rw [find?_map_replace_other k k' v h fs]
  · rw [if_neg hany]
    unfold lookupField
    rw [List.find?_append]
    cases hf : fs.find? (fun p => p.1 == k') with
    | some q => rfl
    | none => simp [List.find?_cons, hbkk']

/-- A delivery performed by the broadcast dispatcher: either to the members of
one room (`io.to(room).emit`) or to every connection (`io.emit`). -/
inductive Delivery where
  | toRoom (room : String) (event : String) (payload : JSObj)
  | toAll (event : String) (payload : JSObj)

/-- The payload carried by a delivery. -/
def Delivery.payload : Delivery → JSObj
  | .toRoom _ _ p => p
  | .toAll _ p => p

/-- The payload enrichment performed by `realTimeEvents.broadcast`
(`src/server.js` lines 548–563): `{...data, timestamp: new Date().toISOString()}`,
a shallow merge in which the dispatcher's timestamp is written last. -/
def broadcastPayloadOf (data : JSObj) (now : String) : JSObj :=
  objSetField data "timestamp" (JSVal.str now)

/-- Embedding of `realTimeEvents.broadcast(event, data, room)`: enrich the
payload, then deliver to the given room if one was passed, else to all
connections. `now` is the dispatcher's ISO-8601 clock reading. -/
def rtBroadcast (event : String) (data : JSObj) (room : Option String)
    (now : String) : Delivery :=
  let payload := broadcastPayloadOf data now
  match room with
  | some r => .toRoom r event payload
  | none => .toAll event payload

/-- Claim C7: for every event, payload and optional room, the delivered
payload's `timestamp` field is the dispatcher's timestamp (overwriting any
caller-supplied value), and every other field of the caller's payload is
preserved unchanged by the shallow merge. -/
theorem claim_C7 (event : String) (data : JSObj) (room : Option String)
    (now : String) (k : String) (hk : k ≠ "timestamp") :
    lookupField (rtBroadcast event data room now).payload "timestamp"
        = some (JSVal.str now)
    ∧ lookupField (rtBroadcast event data room now).payload k = lookupField data k := by
  have hpay : (rtBroadcast event data room now).payload = broadcastPayloadOf data now := by
    cases room <;> rfl
  rw [hpay]
  unfold broadcastPayloadOf
  exact ⟨lookupField_objSetField_same data "timestamp" (JSVal.str now),
    lookupField_objSetField_other data "timestamp" (JSVal.str now) k hk⟩

/-- Witness for claim C7 at a concrete broadcast: the caller supplies a stale
`timestamp` together with a `success` field and the message is sent to the
`drivers` room; the delivered payload carries the dispatcher's timestamp while
`success` is untouched. -/
theorem claim_C7_witness :
    lookupField
        (rtBroadcast "driversUpdate"
          [("success", JSVal.bool true), ("timestamp", JSVal.str "stale")]
          (some "drivers") "2026-10-12T00:00:00.000Z").payload "timestamp"
      = some (JSVal.str "2026-10-12T00:00:00.000Z")
    ∧ lookupField
        (rtBroadcast "driversUpdate"
          [("success", JSVal.bool true), ("timestamp", JSVal.str "stale")]
          (some "drivers") "2026-10-12T00:00:00.000Z").payload "success"
      = lookupField [("success", JSVal.bool true), ("timestamp", JSVal.str "stale")] "success" := by
  exact claim_C7 "driversUpdate"
    [("success", JSVal.bool true), ("timestamp", JSVal.str "stale")]
    (some "drivers") "2026-10-12T00:00:00.000Z" "success" (by decide)

/-- JavaScript `Math.round`: round to the nearest integer, halves toward
positive infinity. -/
def jsMathRound (q : Rat) : Int := ⌊q + 1 / 2⌋

/-- Embedding of `calculatePercentageChange(current, previous)`
(`src/utils/reportsHelper.js` lines 4–7): when `previous` is 0 the result is 0
for `current = 0` and 100 otherwise; else the percentage change rounded to one
decimal via `Math.round(x * 100 * 10) / 10`. -/
def calculatePercentageChange (current previous : Rat) : Rat :=
  if previous = 0 then (if current = 0 then 0 else 100)
  else (jsMathRound ((current - previous) / previous * 100 * 10) : Rat) / 10

/-- Claim C9: `calculatePercentageChange` is total and never divides by zero —
with `previous = 0` it returns 0 when `current = 0` and 100 otherwise, and the
division branch is taken exactly when `previous` is nonzero. -/
theorem claim_C9 (current previous : Rat) :
    (previous = 0 → current = 0 → calculatePercentageChange current previous = 0)
    ∧ (previous = 0 → current ≠ 0 → calculatePercentageChange current previous = 100)
    ∧ (previous ≠ 0 →
        calculatePercentageChange current previous
          = (jsMathRound ((current - previous) / previous * 1000) : Rat) / 10) := by
  refine ⟨?_, ?_, ?_⟩
  · intro hp hc
    simp [calculatePercentageChange, hp, hc]
  · intro hp hc
    simp [calculatePercentageChange, hp, hc]
  · intro hp
    have harg : (current - previous) / previous * 100 * 10
        = (current - previous) / previous * 1000 := by ring
    simp [calculatePercentageChange, hp, harg]

/-- Witness for claim C9: a nonzero current over a zero previous yields 100,
and the division branch computes an ordinary rounded percentage
(150 over 100 gives 50). -/
theorem claim_C9_witness :
    calculatePercentageChange 5 0 = 100 ∧ calculatePercentageChange 150 100 = 50 := by
  constructor
  · exact (claim_C9 5 0).2.1 rfl (by norm_num)
  · rw [(claim_C9 150 100).2.2 (by norm_num)]
    norm_num [jsMathRound]

/-- A driver performance record as consumed by `calculateDriverRankings`
(`src/utils/reportsHelper.js` lines 83–94): the fields the score formula
reads, plus a name standing for the record's remaining payload carried along
by the object spread. -/
structure DriverPerf where
  name : String
  completionRate : Rat
  totalEarnings : Rat
  totalRides : Rat
  deriving DecidableEq

/-- The ranking score: `completionRate * 0.4 + totalEarnings * 0.0001 +
totalRides * 0.1`. -/
def driverScore (d : DriverPerf) : Rat :=
  d.completionRate * (0.4 : Rat) + d.totalEarnings * (0.0001 : Rat) + d.totalRides * (0.1 : Rat)

/-- A driver record augmented with `score` and `rank`, as produced by the two
spreads in `calculateDriverRankings`. -/
structure RankedDriver where
  base : DriverPerf
  score : Rat
  rank : Nat
  deriving DecidableEq

/-- Embedding of `calculateDriverRankings(drivers)`: attach a score to every
record, sort descending by score (`(a, b) => b.score - a.score`, a stable
sort, modelled by a stable merge sort with the matching total order), then
attach `rank = index + 1`. -/
def calculateDriverRankings (drivers : List DriverPerf) : List RankedDriver :=
  let scored := drivers.map (fun d => (d, driverScore d))
  let sorted := scored.mergeSort (fun a b => decide (b.2 ≤ a.2))
  sorted.enum.map (fun p => ⟨p.2.1, p.2.2, p.1 + 1⟩)

/-- Claim C10: `calculateDriverRankings` returns a list of the same length
containing exactly the input drivers, each augmented with its score, ordered
by non-increasing score, with ranks assigned consecutively 1..n in list
order. -/
theorem claim_C10 (drivers : List DriverPerf) :
    (calculateDriverRankings drivers).length = drivers.length
    ∧ ((calculateDriverRankings drivers).map RankedDriver.base).Perm drivers
    ∧ (∀ r ∈ calculateDriverRankings drivers, r.score = driverScore r.base)
    ∧ (calculateDriverRankings drivers).Pairwise (fun a b => b.score ≤ a.score)
    ∧ (calculateDriverRankings drivers).map RankedDriver.rank
        = (List.range drivers.length).map (· + 1) := by
  unfold calculateDriverRankings
  set scored := drivers.map (fun d => (d, driverScore d)) with hscored
  set sorted := scored.mergeSort (fun a b => decide (b.2 ≤ a.2)) with hsorted
  have hperm : sorted.Perm scored := List.mergeSort_perm scored _
  have hlen : sorted.length = drivers.length := by
    rw [List.length_mergeSort, hscored, List.length_map]
  refine ⟨?_, ?_, ?_, ?_, ?_⟩
  · rw [List.length_map, List.enum_length, hlen]
  · have h1 : (sorted.enum.map (fun p : Nat × (DriverPerf × Rat) =>
        (⟨p.2.1, p.2.2, p.1 + 1⟩ : RankedDriver))).map RankedDriver.base
        = sorted.enum.map (fun p => p.2.1) := by
      rw [List.map_map]; rfl
    have h2 : sorted.enum.map (fun p : Nat × (DriverPerf × Rat) => p.2.1)
        = sorted.map Prod.fst := by
      have hms := List.enum_map_snd sorted
      calc sorted.enum.map (fun p => p.2.1)
          = (sorted.enum.map Prod.snd).map Prod.fst := by rw [List.map_map]; rfl
        _ = sorted.map Prod.fst := by rw [hms]
    rw [h1, h2]
    have h3 : (scored.map Prod.fst) = drivers := by
      rw [hscored, List.map_map]
      exact List.map_id drivers
    calc (sorted.map Prod.fst).Perm (scored.map Prod.fst) := hperm.map Prod.fst
      _ = _ := by rw [h3]
  · intro r hr
    rw [List.mem_map] at hr
    obtain ⟨p, hp, hpr⟩ := hr
    have hmem : p.2 ∈ sorted := by
      have hm := List.mem_map_of_mem Prod.snd hp
      rwa [List.enum_map_snd] at hm
    have hmem2 : p.2 ∈ scored := hperm.mem_iff.mp hmem
    rw [hscored, List.mem_map] at hmem2
    obtain ⟨d, _, hd⟩ := hmem2
    rw [← hpr]
    simp only []
    rw [← hd]
  · have htrans : ∀ a b c : DriverPerf × Rat,
        decide (b.2 ≤ a.2) = true → decide (c.2 ≤ b.2) = true → decide (c.2 ≤ a.2) = true := by
      intro a b c hab hbc
      simp only [decide_eq_true_eq] at *
      exact le_trans hbc hab
    have htotal : ∀ a b : DriverPerf × Rat,
        (decide (b.2 ≤ a.2) || decide (a.2 ≤ b.2)) = true := by
      intro a b
      simp only [Bool.or_eq_true, decide_eq_true_eq]
      exact le_total b.2 a.2
    have hsortpw := List.sorted_mergeSort htrans htotal scored
    rw [← hsorted] at hsortpw
    have hpw : sorted.Pairwise (fun a b => b.2 ≤ a.2) :=
      hsortpw.imp (fun h => by simpa using h)
    have henum : sorted.enum.Pairwise (fun p q : Nat × (DriverPerf × Rat) => q.2.2 ≤ p.2.2) := by
      have hiff := (List.pairwise_map (f := Prod.snd)
        (R := fun a b : DriverPerf × Rat => b.2 ≤ a.2) (l := sorted.enum)).mp
      rw [List.enum_map_snd] at hiff
      exact hiff hpw
    rw [List.pairwise_map]
    exact henum.imp (fun h => h)
  · rw [List.map_map]
    have hcomp : ((fun r : RankedDriver => r.rank) ∘ (fun p : Nat × (DriverPerf × Rat) =>
        (⟨p.2.1, p.2.2, p.1 + 1⟩ : RankedDriver))) = (fun p => p.1 + 1) := rfl
    rw [hcomp]
    calc sorted.enum.map (fun p => p.1 + 1)
        = (sorted.enum.map Prod.fst).map (· + 1) := by rw [List.map_map]; rfl
      _ = (List.range sorted.length).map (· + 1) := by rw [List.enum_map_fst]
      _ = (List.range drivers.length).map (· + 1) := by rw [hlen]

/-- Concrete input used to witness claim C10. -/
def c10DriversEx : List DriverPerf :=
  [⟨"A", 0.9, 1000, 50⟩, ⟨"B", 0.5, 100, 10⟩]

/-- Witness for claim C10 on a two-driver list: the observed ranks are `[1, 2]`
and the scores are non-increasing. -/
theorem claim_C10_witness :
    (calculateDriverRankings c10DriversEx).map RankedDriver.rank = [1, 2]
    ∧ (calculateDriverRankings c10DriversEx).Pairwise (fun a b => b.score ≤ a.score) := by
  have h := claim_C10 c10DriversEx
  refine ⟨?_, h.2.2.2.1⟩
  rw [h.2.2.2.2]
  rfl

/-- A geographic position `{lat, lng}` as stored on a driver record. -/
structure Location where
  lat : Rat
  lng : Rat
  deriving DecidableEq

/-- The driver `status` enumeration of `src/models/TRdriverModel.js`:
`["active", "idle", "offline", "emergency"]`. -/
inductive DriverStatus where
  | idle
  | active
  | emergency
  | offline
  deriving DecidableEq

/-- A driver record as read and written by the simulation tick, mirroring the
mongoose schema of `src/models/TRdriverModel.js`: optional trip fields
(`destination`, `passenger`, `tripId`, `eta`) are `Option`s (`none` is
`null`/absent), numbers are rationals, `completedTrips` a natural. Fields the
tick never touches (contact info, KYC, rating, photos) are omitted. -/
structure Driver where
  id : Nat
  name : String
  status : DriverStatus
  location : Option Location
  speed : Rat
  batteryLevel : Rat
  destination : Option String
  passenger : Option String
  tripId : Option String
  eta : Option String
  completedTrips : Nat
  isOnline : Bool
  deriving DecidableEq

/-- The random draws and externally generated values one driver consumes in
one simulation tick (`src/socket.js` lines 444–499): `etaRand`, `assignRand`,
`emergencyRand`, `resolveRand` are the four `Math.random()` results in source
order; `newDestination`/`newPassenger`/`newEta` stand for the values produced
by the `locationSimulator` helpers (or their string fallbacks) and
`tripSuffix` for `Date.now().toString().slice(-6)`. -/
structure SimDraws where
  etaRand : Rat
  assignRand : Rat
  emergencyRand : Rat
  resolveRand : Rat
  newDestination : String
  newPassenger : String
  tripSuffix : String
  newEta : String

/-- Result of the external `locationSimulator` calls for one driver
(`src/socket.js` lines 429–442): `movement = none` models
`simulateMovement` throwing, `some none` a result without a `location`
field, `some (some (loc, speed))` a usable result; `battery = none` models
`simulateBatteryDrain` throwing. -/
structure SimOutcome where
  movement : Option (Option (Location × Rat))
  battery : Option Rat

/-- JavaScript `x || d` on numbers: `0` is falsy, so it falls back to the
default exactly when `x` is zero. -/
def jsNumOr (x d : Rat) : Rat := if x = 0 then d else x

/-- JavaScript truthiness of a nullable string field (`null`, absent and `""`
are falsy). -/
def jsStrTruthy : Option String → Bool
  | none => false
  | some t => !(t == "")

/-- `Number.parseInt(driver.eta?.replace(/\D/g, "") || "0")`: strip every
non-digit from the ETA string and parse the rest, yielding 0 for a missing
ETA or one without digits. -/
def parseETA : Option String → Nat
  | none => 0
  | some s =>
    let ds := s.data.filter Char.isDigit
    if ds.isEmpty then 0
    else ds.foldl (fun a c => a * 10 + (c.toNat - 48)) 0

/-- The movement/battery portion of the tick body (`src/socket.js` lines
424–442): defaults from the driver record (`location ||
{lat: 24.8607, lng: 67.0011}`, `speed || 0`, `batteryLevel || 80`), then the
`locationSimulator` results where available, with the partial-failure
behaviour of the inner `try` block. -/
def simPhysical (d : Driver) (o : SimOutcome) : Location × Rat × Rat :=
  let loc0 := d.location.getD ⟨(24.8607 : Rat), (67.0011 : Rat)⟩
  let sp0 := jsNumOr d.speed 0
  let bat0 := jsNumOr d.batteryLevel 80
  match o.movement with
  | none => (loc0, sp0, bat0)
  | some mr =>
    let ls := match mr with
      | some ls => ls
      | none => (loc0, sp0)
    match o.battery with
    | none => (ls.1, ls.2, bat0)
    | some b => (ls.1, ls.2, b)

/-- Trip-progress block (`src/socket.js` lines 444–460): for an `active`
driver with a truthy destination, decrement the parsed ETA when it is above
1, otherwise complete the trip — set status `idle`, clear
`destination`/`passenger`/`tripId`/`eta` and increment `completedTrips`. -/
def tickTripProgress (r : SimDraws) (d : Driver) : Driver :=
  if d.status = DriverStatus.active ∧ jsStrTruthy d.destination = true then
    let currentETA := parseETA d.eta
    if currentETA > 1 then
      { d with eta := some (toString (max 1 ((currentETA : Int) - Int.floor (r.etaRand * 2))) ++ " mins") }
    else
      { d with status := DriverStatus.idle, destination := none, passenger := none,
               tripId := none, eta := none, completedTrips := d.completedTrips + 1 }
  else d

/-- Trip-assignment block (`src/socket.js` lines 462–480): an `idle` driver
becomes `active` with probability 0.1, receiving a destination, passenger,
`TRP…` trip id and a fresh ETA. -/
def tickAssign (r : SimDraws) (d : Driver) : Driver :=
  if d.status = DriverStatus.idle ∧ r.assignRand < (0.1 : Rat) then
    { d with status := DriverStatus.active, destination := some r.newDestination,
             passenger := some r.newPassenger, tripId := some ("TRP" ++ r.tripSuffix),
             eta := some r.newEta }
  else d

/-- Emergency-injection block (`src/socket.js` lines 482–494): an `active`
driver becomes `emergency` with probability 0.005 (the accompanying
`emergencyAlert` broadcast carries no state). -/
def tickEmergency (r : SimDraws) (d : Driver) : Driver :=
  if d.status = DriverStatus.active ∧ r.emergencyRand < (0.005 : Rat) then
    { d with status := DriverStatus.emergency }
  else d

/-- Emergency-resolution block (`src/socket.js` lines 496–499): an
`emergency` driver returns to `active` with probability 0.2. -/
def tickResolve (r : SimDraws) (d : Driver) : Driver :=
  if d.status = DriverStatus.emergency ∧ r.resolveRand < (0.2 : Rat) then
    { d with status := DriverStatus.active }
  else d

/-- One driver's full tick: the four lifecycle blocks applied in source
order to the mutable `driver` object, then the update document written by
`Driver.findByIdAndUpdate` (`src/socket.js` lines 501–517), which combines
the lifecycle fields with the physical simulation results. -/
def simDriverStep (d : Driver) (o : SimOutcome) (r : SimDraws) : Driver :=
  let phys := simPhysical d o
  let s4 := tickResolve r (tickEmergency r (tickAssign r (tickTripProgress r d)))
  { s4 with location := some phys.1, speed := phys.2.1, batteryLevel := phys.2.2 }

/-- Concrete driver for the C1 counterexample: active, destination `Mall`,
ETA already at its floor (`"1 mins"`). -/
def c1DriverEx : Driver :=
  { id := 1, name := "D", status := DriverStatus.active,
    location := some ⟨24, 67⟩, speed := 30, batteryLevel := 90,
    destination := some "Mall", passenger := some "P", tripId := some "TRP000001",
    eta := some "1 mins", completedTrips := 0, isOnline := true }

/-- Concrete simulator outcome for the C1 counterexample. -/
def c1SimEx : SimOutcome := ⟨some (some (⟨(24.1 : Rat), (67.1 : Rat)⟩, 35)), some 89⟩

/-- Concrete draws for the C1 counterexample: the 10% re-assignment draw
fires (`assignRand = 0 < 0.1`) while emergency/resolution draws do not. -/
def c1DrawsEx : SimDraws :=
  { etaRand := 0.5, assignRand := 0, emergencyRand := 0.9, resolveRand := 0.9,
    newDestination := "Airport", newPassenger := "Q", tripSuffix := "123456",
    newEta := "15 mins" }

/-- Claim C1 counterexample: a driver that is `active` with non-null
destination and floor ETA does have its trip completed and `completedTrips`
incremented, but because the 10% re-assignment check runs in the same tick
and sees the just-set `idle` status, the driver ends the tick `active` with
a fresh destination and ETA — not `idle` with all fields cleared, as the
claim states for every such driver. -/
theorem claim_C1_counterexample :
    c1DriverEx.status = DriverStatus.active
    ∧ c1DriverEx.destination = some "Mall"
    ∧ parseETA c1DriverEx.eta ≤ 1
    ∧ (simDriverStep c1DriverEx c1SimEx c1DrawsEx).status = DriverStatus.active
    ∧ (simDriverStep c1DriverEx c1SimEx c1DrawsEx).destination = some "Airport"
    ∧ (simDriverStep c1DriverEx c1SimEx c1DrawsEx).eta = some "15 mins"
    ∧ (simDriverStep c1DriverEx c1SimEx c1DrawsEx).completedTrips = c1DriverEx.completedTrips + 1 := by
  have h1 : tickTripProgress c1DrawsEx c1DriverEx
      = { c1DriverEx with status := DriverStatus.idle, destination := none, passenger := none,
                          tripId := none, eta := none, completedTrips := 1 } := rfl
  have h2 : tickAssign c1DrawsEx (tickTripProgress c1DrawsEx c1DriverEx)
      = { c1DriverEx with status := DriverStatus.active, destination := some "Airport",
                          passenger := some "Q", tripId := some "TRP123456",
                          eta := some "15 mins", completedTrips := 1 } := by
    rw [h1]
    unfold tickAssign
    rw [if_pos ⟨rfl, by norm_num [c1DrawsEx]⟩]
    rfl
  have h3 : tickEmergency c1DrawsEx (tickAssign c1DrawsEx (tickTripProgress c1DrawsEx c1DriverEx))
      = tickAssign c1DrawsEx (tickTripProgress c1DrawsEx c1DriverEx) := by
    rw [h2]
    unfold tickEmergency
    rw [if_neg (fun h => absurd h.2 (by norm_num [c1DrawsEx]))]
  have h4 : simDriverStep c1DriverEx c1SimEx c1DrawsEx
      = { c1DriverEx with status := DriverStatus.active, destination := some "Airport",
                          passenger := some "Q", tripId := some "TRP123456",
                          eta := some "15 mins", completedTrips := 1,
                          location := some ⟨(24.1 : Rat), (67.1 : Rat)⟩, speed := 35,
                          batteryLevel := 89 } := by
    unfold simDriverStep
    rw [h3, h2]
    unfold tickResolve
    rw [if_neg (fun h => nomatch h.1)]
    rfl
  refine ⟨rfl, rfl, by decide, ?_, ?_, ?_, ?_⟩
  all_goals rw [h4]
  all_goals rfl

/-- Claim C1 amended: for an `active` driver with truthy (non-null,
non-empty) destination whose parsed ETA has reached its floor (≤ 1), one
tick completes the trip — provided the independent 10% re-assignment draw
does not fire, the persisted update has status `idle`, has `destination`,
`passenger`, `tripId` and `eta` all cleared in the same update, and has
`completedTrips` incremented by exactly 1. -/
theorem claim_C1_amended (d : Driver) (o : SimOutcome) (r : SimDraws)
    (hact : d.status = DriverStatus.active)
    (hdest : jsStrTruthy d.destination = true)
    (heta : parseETA d.eta ≤ 1)
    (hassign : ¬ r.assignRand < (0.1 : Rat)) :
    (simDriverStep d o r).status = DriverStatus.idle
    ∧ (simDriverStep d o r).destination = none
    ∧ (simDriverStep d o r).passenger = none
    ∧ (simDriverStep d o r).tripId = none
    ∧ (simDriverStep d o r).eta = none
    ∧ (simDriverStep d o r).completedTrips = d.completedTrips + 1 := by
  have h1 : tickTripProgress r d
      = { d with status := DriverStatus.idle, destination := none, passenger := none,
                 tripId := none, eta := none, completedTrips := d.completedTrips + 1 } := by
    unfold tickTripProgress
    rw [if_pos ⟨hact, hdest⟩, if_neg (Nat.not_lt.mpr heta)]
  have h2 : tickAssign r (tickTripProgress r d) = tickTripProgress r d := by
    rw [h1]
    unfold tickAssign
    rw [if_neg (fun h => hassign h.2)]
  have h3 : tickEmergency r (tickAssign r (tickTripProgress r d))
      = tickAssign r (tickTripProgress r d) := by
    rw [h2, h1]
    unfold tickEmergency
    rw [if_neg (fun h => nomatch h.1)]
  have h4 : simDriverStep d o r
      = { d with status := DriverStatus.idle, destination := none, passenger := none,
                 tripId := none, eta := none, completedTrips := d.completedTrips + 1,
                 location := some (simPhysical d o).1, speed := (simPhysical d o).2.1,
                 batteryLevel := (simPhysical d o).2.2 } := by
    unfold simDriverStep
    rw [h3, h2, h1]
    unfold tickResolve
    rw [if_neg (fun h => nomatch h.1)]
  refine ⟨?_, ?_, ?_, ?_, ?_, ?_⟩
  all_goals rw [h4]


/-- One driver's slice of a simulation tick: the record fetched by
`Driver.find({isOnline: true})`, its simulator outcomes and draws, and
whether its `Driver.findByIdAndUpdate` write succeeds. -/
structure TickInput where
  driver : Driver
  sim : SimOutcome
  draws : SimDraws
  writeOk : Bool

/-- Observable outcome of one tick of `driverSimulationInterval`
(`src/socket.js` lines 418–547): the successfully persisted updates in
iteration order, the `driversUpdate` broadcast payload (if any), the ids in
the individual `locationUpdate` emissions, and whether the tick was aborted
by a thrown error reaching the outer catch. -/
structure TickResult where
  persisted : List Driver
  broadcast : Option (List Driver)
  locationUpdates : List Nat
  aborted : Bool

/-- The `for (const driver of drivers)` loop with accumulator
`updatedDrivers`: a failed write throws, escaping to the outer catch, which
ends the tick with no broadcast; when the loop completes, a non-empty
`updatedDrivers` is broadcast and each `active` driver also gets an
individual `locationUpdate`. -/
def runSimTickAux : List TickInput → List Driver → TickResult
  | [], acc =>
    if acc.length > 0 then
      { persisted := acc, broadcast := some acc,
        locationUpdates := (acc.filter (fun d => decide (d.status = DriverStatus.active))).map Driver.id,
        aborted := false }
    else
      { persisted := acc, broadcast := none, locationUpdates := [], aborted := false }
  | i :: rest, acc =>
    let d' := simDriverStep i.driver i.sim i.draws
    if i.writeOk then
      runSimTickAux rest (acc ++ [d'])
    else
      { persisted := acc, broadcast := none, locationUpdates := [], aborted := true }

/-- One full simulation tick over the online drivers. -/
def runSimTick (inputs : List TickInput) : TickResult := runSimTickAux inputs []

/-- Concrete driver for the C5 witness inputs: `offline` status keeps every
lifecycle block inert, isolating the write-failure control flow. -/
def c5OfflineDriver (n : Nat) : Driver :=
  { id := n, name := "D", status := DriverStatus.offline,
    location := some ⟨24, 67⟩, speed := 10, batteryLevel := 50,
    destination := none, passenger := none, tripId := none,
    eta := none, completedTrips := 0, isOnline := true }

/-- Concrete simulator outcome for the C5 inputs. -/
def c5SimEx : SimOutcome := ⟨some (some (⟨25, 68⟩, 20)), some 49⟩

/-- Concrete draws for the C5 inputs (none of the probabilistic draws
fire). -/
def c5DrawsEx : SimDraws :=
  { etaRand := 0.5, assignRand := 0.5, emergencyRand := 0.5, resolveRand := 0.5,
    newDestination := "X", newPassenger := "Y", tripSuffix := "000000", newEta := "15 mins" }

/-- A tick input whose store write fails. -/
def c5FailInput : TickInput := ⟨c5OfflineDriver 1, c5SimEx, c5DrawsEx, false⟩
/-- A tick input whose store write succeeds. -/
def c5OkInput : TickInput := ⟨c5OfflineDriver 2, c5SimEx, c5DrawsEx, true⟩

/-- Claim C5 counterexample: in a two-driver tick where the first driver's
write fails and the second's would succeed, nothing is persisted, the tick
aborts and no end-of-tick broadcast occurs — the second driver is neither
persisted nor broadcast, contradicting "only that driver's update is
skipped; the remaining drivers are still simulated, persisted, and included
in the end-of-tick broadcast". -/
theorem claim_C5_counterexample :
    c5FailInput.writeOk = false
    ∧ c5OkInput.writeOk = true
    ∧ (runSimTick [c5FailInput, c5OkInput]).persisted = []
    ∧ (runSimTick [c5FailInput, c5OkInput]).broadcast = none
    ∧ (runSimTick [c5FailInput, c5OkInput]).aborted = true := by
  exact ⟨rfl, rfl, rfl, rfl, rfl⟩

/-- Auxiliary: a failed write aborts the remainder of the loop, keeping only
the writes persisted before it and producing no broadcast. -/
theorem runSimTickAux_abort (i : TickInput) (post : List TickInput) (hi : i.writeOk = false) :
    ∀ (pre : List TickInput) (acc : List Driver), (∀ j ∈ pre, j.writeOk = true) →
      runSimTickAux (pre ++ i :: post) acc
        = { persisted := acc ++ pre.map (fun j => simDriverStep j.driver j.sim j.draws),
            broadcast := none, locationUpdates := [], aborted := true } := by
  intro pre
  induction pre with
  | nil =>
    intro acc _
    simp only [List.nil_append, runSimTickAux, hi, Bool.false_eq_true, if_false,
      List.map_nil, List.append_nil]
  | cons j pre' ih =>
    intro acc hpre
    have hj : j.writeOk = true := hpre j (List.mem_cons_self j pre')
    have hpre' : ∀ k ∈ pre', k.writeOk = true := fun k hk => hpre k (List.mem_cons_of_mem j hk)
    simp only [List.cons_append, runSimTickAux, hj, if_true, List.append_eq]
    rw [ih (acc ++ [simDriverStep j.driver j.sim j.draws]) hpre']
    simp [List.append_assoc]

/-- Claim C5 amended: when the persistent-store write for one driver fails,
the exception escapes the per-driver loop to the tick's outer catch: drivers
before it in the iteration keep their persisted updates, but the failing
driver and every driver after it are not persisted, and no end-of-tick
broadcast or location update is emitted for anyone. -/
theorem claim_C5_amended (pre : List TickInput) (i : TickInput) (post : List TickInput)
    (hpre : ∀ j ∈ pre, j.writeOk = true) (hi : i.writeOk = false) :
    runSimTick (pre ++ i :: post)
      = { persisted := pre.map (fun j => simDriverStep j.driver j.sim j.draws),
          broadcast := none, locationUpdates := [], aborted := true } := by
  unfold runSimTick
  rw [runSimTickAux_abort i post hi pre [] hpre]
  simp

/-- Witness for claim C5's amended theorem: one successful write before a
failing one, with another would-be successful write after it. -/
theorem claim_C5_amended_witness :
    (∀ j ∈ [c5OkInput], j.writeOk = true)
    ∧ c5FailInput.writeOk = false
    ∧ runSimTick ([c5OkInput] ++ c5FailInput :: [c5OkInput])
        = { persisted := [c5OkInput].map (fun j => simDriverStep j.driver j.sim j.draws),
            broadcast := none, locationUpdates := [], aborted := true } := by
  refine ⟨?_, rfl, ?_⟩
  · intro j hj
    simp only [List.mem_singleton] at hj
    subst hj
    rfl
  · exact claim_C5_amended [c5OkInput] c5FailInput [c5OkInput]
      (by intro j hj; simp only [List.mem_singleton] at hj; subst hj; rfl) rfl

/-- Draws for the C1 witness: the 10% re-assignment draw does not fire
(`assignRand = 0.5`), nor do the emergency draws. -/
def c1NoAssignDraws : SimDraws :=
  { etaRand := 0.5, assignRand := 0.5, emergencyRand := 0.9, resolveRand := 0.9,
    newDestination := "Airport", newPassenger := "Q", tripSuffix := "123456",
    newEta := "15 mins" }

/-- Witness for claim C1's amended theorem: the active driver with destination
`Mall` and floor ETA ends the tick idle with trip fields cleared and
`completedTrips` going from 0 to 1. -/
theorem claim_C1_amended_witness :
    c1DriverEx.status = DriverStatus.active
    ∧ jsStrTruthy c1DriverEx.destination = true
    ∧ parseETA c1DriverEx.eta ≤ 1
    ∧ ¬ c1NoAssignDraws.assignRand < (0.1 : Rat)
    ∧ (simDriverStep c1DriverEx c1SimEx c1NoAssignDraws).status = DriverStatus.idle
    ∧ (simDriverStep c1DriverEx c1SimEx c1NoAssignDraws).destination = none
    ∧ (simDriverStep c1DriverEx c1SimEx c1NoAssignDraws).completedTrips
        = c1DriverEx.completedTrips + 1 := by
  have hassign : ¬ c1NoAssignDraws.assignRand < (0.1 : Rat) := by norm_num [c1NoAssignDraws]
  have h := claim_C1_amended c1DriverEx c1SimEx c1NoAssignDraws rfl rfl (by decide) hassign
  exact ⟨rfl, rfl, by decide, hassign, h.1, h.2.1, h.2.2.2.2.2⟩

/-- State relevant to the re-entrancy guard of `ReportsSocketService`
(`src/services/reportsSocketService.js`): the `connectedClients` map size,
the `broadcastInProgress` flag, and — as an observer, not program state — the
number of broadcast cycles currently between "guard taken" and "guard
released". -/
structure ReportsGuard where
  clients : Nat
  broadcastInProgress : Bool
  activeCycles : Nat
  deriving DecidableEq

/-- Atomic events of the guard protocol. The check-and-set prefix of
`broadcastReportsSummary`/`broadcastEarningsReport` (lines 285–287 and
330–332) contains no `await`, so on the single-threaded event loop it is one
atomic step (`startSummary`/`startEarnings`); `triggerUpdate` is
`triggerReportsUpdate`'s own guard check (line 384) followed by the summary
cycle's check-and-set, its deferred earnings broadcast being a later
`startEarnings` event; `finishCycle` is the `mockRes.json`/`status`/`catch`
handler clearing the flag; `connect`/`disconnect` change the client count. -/
inductive GuardEvent where
  | startSummary
  | startEarnings
  | triggerUpdate
  | finishCycle
  | connect
  | disconnect
  deriving DecidableEq

/-- One atomic guard transition: a start event is skipped (state unchanged)
when there are no clients or a broadcast is already in progress, otherwise it
takes the guard and opens a cycle; a finish event releases the guard and
closes the cycle. -/
def guardStep (s : ReportsGuard) : GuardEvent → ReportsGuard
  | .startSummary =>
    if s.clients = 0 ∨ s.broadcastInProgress = true then s
    else { s with broadcastInProgress := true, activeCycles := s.activeCycles + 1 }
  | .startEarnings =>
    if s.clients = 0 ∨ s.broadcastInProgress = true then s
    else { s with broadcastInProgress := true, activeCycles := s.activeCycles + 1 }
  | .triggerUpdate =>
    if s.broadcastInProgress = true then s
    else if s.clients = 0 ∨ s.broadcastInProgress = true then s
    else { s with broadcastInProgress := true, activeCycles := s.activeCycles + 1 }
  | .finishCycle =>
    if s.activeCycles = 0 then s
    else { s with broadcastInProgress := false, activeCycles := s.activeCycles - 1 }
  | .connect => { s with clients := s.clients + 1 }
  | .disconnect => { s with clients := s.clients - 1 }

/-- Service state at construction: no clients, guard clear, no cycle. -/
def initialGuard : ReportsGuard := ⟨0, false, 0⟩

/-- The guard invariant: a cycle is open exactly while the flag is set. -/
def GuardInv (s : ReportsGuard) : Prop :=
  s.activeCycles = if s.broadcastInProgress = true then 1 else 0

/-- Auxiliary: every guard event preserves the guard invariant. -/
theorem guardStep_inv (s : ReportsGuard) (e : GuardEvent) (h : GuardInv s) :
    GuardInv (guardStep s e) := by
  cases e with
  | startSummary =>
    unfold guardStep
    by_cases hc : s.clients = 0 ∨ s.broadcastInProgress = true
    · rw [if_pos hc]; exact h
    · rw [if_neg hc]
      push_neg at hc
      unfold GuardInv at h ⊢
      simp only [hc.2, Bool.false_eq_true, if_false] at h
      simp [h]
  | startEarnings =>
    unfold guardStep
    by_cases hc : s.clients = 0 ∨ s.broadcastInProgress = true
    · rw [if_pos hc]; exact h
    · rw [if_neg hc]
      push_neg at hc
      unfold GuardInv at h ⊢
      simp only [hc.2, Bool.false_eq_true, if_false] at h
      simp [h]
  | triggerUpdate =>
    unfold guardStep
    by_cases hb : s.broadcastInProgress = true
    · rw [if_pos hb]; exact h
    · rw [if_neg hb]
      by_cases hc : s.clients = 0 ∨ s.broadcastInProgress = true
      · rw [if_pos hc]; exact h
      · rw [if_neg hc]
        unfold GuardInv at h ⊢
        simp only [hb, Bool.false_eq_true, if_false] at h
        simp [h]
  | finishCycle =>
    unfold guardStep
    by_cases ha : s.activeCycles = 0
    · rw [if_pos ha]; exact h
    · rw [if_neg ha]
      unfold GuardInv at h ⊢
      by_cases hb : s.broadcastInProgress = true
      · simp only [hb, if_true] at h
        simp [h]
      · simp only [hb, Bool.false_eq_true, if_false] at h
        exact absurd h ha
  | connect =>
    unfold guardStep GuardInv at *
    exact h
  | disconnect =>
    unfold guardStep GuardInv at *
    exact h

/-- Auxiliary: the guard invariant holds along every event trace. -/
theorem foldl_guardStep_inv (evs : List GuardEvent) :
    ∀ s : ReportsGuard, GuardInv s → GuardInv (evs.foldl guardStep s) := by
  induction evs with
  | nil => intro s h; exact h
  | cons e rest ih =>
    intro s h
    exact ih (guardStep s e) (guardStep_inv s e h)

/-- Claim C8: broadcast cycles never overlap. In every state reachable from
service construction, at most one broadcast cycle is in progress, and while
the `broadcastInProgress` guard is set every subsequent trigger — periodic
summary, periodic earnings, or `triggerReportsUpdate` — leaves the state
unchanged (it is skipped, not queued). -/
theorem claim_C8 (evs : List GuardEvent) :
    ((evs.foldl guardStep initialGuard).activeCycles ≤ 1)
    ∧ ((evs.foldl guardStep initialGuard).broadcastInProgress = true →
        guardStep (evs.foldl guardStep initialGuard) GuardEvent.startSummary
            = evs.foldl guardStep initialGuard
        ∧ guardStep (evs.foldl guardStep initialGuard) GuardEvent.startEarnings
            = evs.foldl guardStep initialGuard
        ∧ guardStep (evs.foldl guardStep initialGuard) GuardEvent.triggerUpdate
            = evs.foldl guardStep initialGuard) := by
  have hinv : GuardInv (evs.foldl guardStep initialGuard) :=
    foldl_guardStep_inv evs initialGuard (by unfold GuardInv initialGuard; rfl)
  constructor
  · unfold GuardInv at hinv
    rw [hinv]
    by_cases hb : (evs.foldl guardStep initialGuard).broadcastInProgress = true <;> simp [hb]
  · intro hb
    generalize hS : evs.foldl guardStep initialGuard = S at hb ⊢
    refine ⟨?_, ?_, ?_⟩
    · unfold guardStep
      rw [if_pos (Or.inr hb)]
    · unfold guardStep
      rw [if_pos (Or.inr hb)]
    · unfold guardStep
      rw [if_pos hb]

/-- Witness for claim C8 after a client connects and a summary cycle starts:
the guard is set, one cycle is open, and both a trigger and a periodic
earnings start are skipped. -/
theorem claim_C8_witness :
    (([GuardEvent.connect, GuardEvent.startSummary].foldl guardStep initialGuard).broadcastInProgress
        = true)
    ∧ (([GuardEvent.connect, GuardEvent.startSummary].foldl guardStep initialGuard).activeCycles ≤ 1)
    ∧ guardStep ([GuardEvent.connect, GuardEvent.startSummary].foldl guardStep initialGuard)
        GuardEvent.triggerUpdate
        = [GuardEvent.connect, GuardEvent.startSummary].foldl guardStep initialGuard
    ∧ guardStep ([GuardEvent.connect, GuardEvent.startSummary].foldl guardStep initialGuard)
        GuardEvent.startEarnings
        = [GuardEvent.connect, GuardEvent.startSummary].foldl guardStep initialGuard := by
  have h := claim_C8 [GuardEvent.connect, GuardEvent.startSummary]
  exact ⟨rfl, h.1, (h.2 rfl).2.2, (h.2 rfl).2.1⟩

/-- Per-collection change-detection state combining the two watcher layers of
`src/server.js`: `modelStreamSubs` counts open change streams held by
`setupModelChangeStream`'s `changeStream` variable (lines 1016–1126),
`isConnected` and `pendingTimers` are its reconnect flag and the 5-second
`setTimeout` retries scheduled by its error/close handlers, `setupCalls`
counts invocations of its `setupStream` (an observer used to count reconnect
attempts), and `directSubs` counts the independent stream opened on the same
collection by `setupDirectDbChangeDetection` (lines 1157–1294), which
installs no error or close handler. -/
structure WatchState where
  modelStreamSubs : Nat
  isConnected : Bool
  pendingTimers : Nat
  setupCalls : Nat
  directSubs : Nat
  deriving DecidableEq

/-- `setupStream()` (lines 1020–1111): closes the previous change stream if
any, opens a new one — hence exactly one model-layer stream afterwards — and
sets `isConnected = true`. -/
def setupStream (s : WatchState) : WatchState :=
  { s with modelStreamSubs := 1, isConnected := true, setupCalls := s.setupCalls + 1 }

/-- `Model.watch(...)` in `setupDirectDbChangeDetection`: opens one more
stream on the collection, with no reconnect handling attached. -/
def openDirectDbStream (s : WatchState) : WatchState :=
  { s with directSubs := s.directSubs + 1 }

/-- State before the MongoDB connection opens: no streams, no timers. -/
def initialWatchState : WatchState := ⟨0, false, 0, 0, 0⟩

/-- State of one collection after `mongoose.connection.once("open")` runs
`setupChangeStreams()` and then `setupDirectDbChangeDetection()`
(`src/server.js` lines 1377–1391): both layers hold an open stream. -/
def startupWatchState : WatchState := openDirectDbStream (setupStream initialWatchState)

/-- All notification subscriptions currently open on the collection. -/
def totalSubscriptions (s : WatchState) : Nat := s.modelStreamSubs + s.directSubs

/-- Events delivered to the model-layer watcher: a change-stream `error`
event, a change-stream `close` event (each schedules one 5-second retry
timer), and the firing of one such timer. -/
inductive WatchEvent where
  | streamError
  | streamClose
  | timerFire
  deriving DecidableEq

/-- One watcher transition, from the handlers in `setupModelChangeStream`:
`error` clears `isConnected` and schedules a retry; `close` additionally
leaves the stream closed; a firing timer re-runs `setupStream()` only if the
watcher is still disconnected (`if (!isConnected)`), otherwise it does
nothing. -/
def watchStep (s : WatchState) : WatchEvent → WatchState
  | .streamError => { s with isConnected := false, pendingTimers := s.pendingTimers + 1 }
  | .streamClose =>
    { s with isConnected := false, pendingTimers := s.pendingTimers + 1, modelStreamSubs := 0 }
  | .timerFire =>
    if s.pendingTimers = 0 then s
    else
      let s1 := { s with pendingTimers := s.pendingTimers - 1 }
      if s1.isConnected = true then s1 else setupStream s1

/-- Claim C4 counterexample: immediately after startup — before any error at
all — the process holds two active notification subscriptions for the same
collection, one from `setupModelChangeStream` and one from
`setupDirectDbChangeDetection`, refuting "at every moment at most one
notification subscription for that collection is active". -/
theorem claim_C4_counterexample :
    totalSubscriptions startupWatchState = 2
    ∧ startupWatchState.pendingTimers = 0 := ⟨rfl, rfl⟩

/-- Auxiliary: no event raises the model-layer stream count above one. -/
theorem watchStep_subs_le (s : WatchState) (e : WatchEvent) (h : s.modelStreamSubs ≤ 1) :
    (watchStep s e).modelStreamSubs ≤ 1 := by
  cases e with
  | streamError => exact h
  | streamClose => exact Nat.zero_le 1
  | timerFire =>
    unfold watchStep
    by_cases ht : s.pendingTimers = 0
    · rw [if_pos ht]; exact h
    · rw [if_neg ht]
      by_cases hc : s.isConnected = true
      · rw [if_pos hc]; exact h
      · rw [if_neg hc]; exact Nat.le_refl 1

/-- Auxiliary: along any event trace the model layer holds at most one open
stream. -/
theorem foldl_watchStep_subs_le (evs : List WatchEvent) :
    ∀ s : WatchState, s.modelStreamSubs ≤ 1 → (evs.foldl watchStep s).modelStreamSubs ≤ 1 := by
  induction evs with
  | nil => intro s h; exact h
  | cons e rest ih => intro s h; exact ih (watchStep s e) (watchStep_subs_le s e h)

/-- Auxiliary: while the watcher is connected, firing retry timers performs
no further `setupStream` calls and leaves it connected. -/
theorem timerFires_connected (m : Nat) :
    ∀ s : WatchState, s.isConnected = true →
      ((List.replicate m WatchEvent.timerFire).foldl watchStep s).setupCalls = s.setupCalls
      ∧ ((List.replicate m WatchEvent.timerFire).foldl watchStep s).isConnected = true := by
  induction m with
  | zero => intro s h; exact ⟨rfl, h⟩
  | succ n ih =>
    intro s h
    rw [List.replicate_succ, List.foldl_cons]
    have hstep : (watchStep s WatchEvent.timerFire).setupCalls = s.setupCalls
        ∧ (watchStep s WatchEvent.timerFire).isConnected = true := by
      unfold watchStep
      by_cases ht : s.pendingTimers = 0
      · rw [if_pos ht]; exact ⟨rfl, h⟩
      · rw [if_neg ht, if_pos h]
        exact ⟨rfl, h⟩
    obtain ⟨h1, h2⟩ := ih (watchStep s WatchEvent.timerFire) hstep.2
    exact ⟨h1.trans hstep.1, h2⟩

/-- Claim C4 amended, scoped to the `setupModelChangeStream` watcher: it
never holds more than one open stream per collection; each `error` event
schedules exactly one retry timer without touching the subscriptions, and
each `close` event likewise schedules exactly one retry timer (leaving the
model-layer stream closed); from a disconnected state, a run of pending
timer firings performs exactly one `setupStream` reconnect (the first firing
reconnects, later ones see `isConnected` and skip); and no event ever
reopens the separate `setupDirectDbChangeDetection` stream, which has no
reconnect handling — while, per the counterexample, that second stream means
the process as a whole holds two subscriptions per collection from
startup. -/
theorem claim_C4_amended (evs : List WatchEvent) (s : WatchState) (k : Nat)
    (hc : s.isConnected = false) (hk : 1 ≤ k) (ht : 1 ≤ s.pendingTimers) :
    ((evs.foldl watchStep startupWatchState).modelStreamSubs ≤ 1)
    ∧ ((watchStep s WatchEvent.streamError).pendingTimers = s.pendingTimers + 1
        ∧ (watchStep s WatchEvent.streamError).modelStreamSubs = s.modelStreamSubs)
    ∧ ((watchStep s WatchEvent.streamClose).pendingTimers = s.pendingTimers + 1
        ∧ (watchStep s WatchEvent.streamClose).modelStreamSubs = 0)
    ∧ (((List.replicate k WatchEvent.timerFire).foldl watchStep s).setupCalls = s.setupCalls + 1)
    ∧ (∀ e : WatchEvent, (watchStep s e).directSubs = s.directSubs) := by
  refine ⟨?_, ⟨rfl, rfl⟩, ⟨rfl, rfl⟩, ?_, ?_⟩
  · exact foldl_watchStep_subs_le evs startupWatchState (Nat.le_refl 1)
  · obtain ⟨n, rfl⟩ : ∃ n, k = n + 1 := ⟨k - 1, (Nat.succ_pred_eq_of_pos hk).symm⟩
    rw [List.replicate_succ, List.foldl_cons]
    have hfirst : watchStep s WatchEvent.timerFire
        = setupStream { s with pendingTimers := s.pendingTimers - 1 } := by
      unfold watchStep
      rw [if_neg (Nat.pos_iff_ne_zero.mp ht), if_neg (by rw [show ({ s with pendingTimers := s.pendingTimers - 1 } : WatchState).isConnected = s.isConnected from rfl, hc]; exact Bool.false_ne_true)]
    rw [hfirst]
    have hconn : (setupStream { s with pendingTimers := s.pendingTimers - 1 }).isConnected = true := rfl
    obtain ⟨h1, _⟩ := timerFires_connected n _ hconn
    rw [h1]
    rfl
  · intro e
    cases e with
    | streamError => rfl
    | streamClose => rfl
    | timerFire =>
      unfold watchStep
      by_cases htz : s.pendingTimers = 0
      · rw [if_pos htz]
      · rw [if_neg htz]
        by_cases hcc : ({ s with pendingTimers := s.pendingTimers - 1 } : WatchState).isConnected = true
        · rw [if_pos hcc]
        · rw [if_neg hcc]; rfl

/-- The watcher state right after a change-stream error at startup. -/
def c4ErroredState : WatchState := watchStep startupWatchState WatchEvent.streamError

/-- Witness for claim C4's amended theorem at the state following one
stream error: one pending timer, firing it performs exactly one reconnect,
and both an error and a close event each schedule exactly one further
timer. -/
theorem claim_C4_amended_witness :
    c4ErroredState.isConnected = false
    ∧ 1 ≤ c4ErroredState.pendingTimers
    ∧ (([] : List WatchEvent).foldl watchStep startupWatchState).modelStreamSubs ≤ 1
    ∧ (watchStep c4ErroredState WatchEvent.streamError).pendingTimers
        = c4ErroredState.pendingTimers + 1
    ∧ (watchStep c4ErroredState WatchEvent.streamClose).pendingTimers
        = c4ErroredState.pendingTimers + 1
    ∧ ((List.replicate 1 WatchEvent.timerFire).foldl watchStep c4ErroredState).setupCalls
        = c4ErroredState.setupCalls + 1 := by
  have h := claim_C4_amended [] c4ErroredState 1 rfl (Nat.le_refl 1) (Nat.le_refl 1)
  exact ⟨rfl, Nat.le_refl 1, h.1, h.2.1.1, h.2.2.1.1, h.2.2.2.1⟩

/-- An observable effect of a join/connection handler, in execution order: a
round trip to the persistent store, or an emission to the joining socket
(`payload` is the `data` carried by the emitted envelope). -/
inductive RTEffect where
  | storeFetch (collection : String)
  | emitEvt (event : String) (payload : JSVal)

/-- Is this effect a store round trip? -/
def RTEffect.isStoreFetch : RTEffect → Bool
  | .storeFetch _ => true
  | _ => false

/-- Embedding of `sendRoomData(socket, room)` (`src/server.js` lines 877–932),
the body of the `join-room` handler's data send: each known room performs a
fresh store query (`Vehicle.find()`, `Driver.find()`, the dashboard stats
controller, `Ride.find()`, `Admin.find()`) and then emits its result; rooms
outside the switch — including `reports` — send nothing. `store` maps a
collection to its current listing. -/
def sendRoomData (store : String → JSVal) (room : String) : List RTEffect :=
  match room with
  | "vehicles" => [.storeFetch "vehicles", .emitEvt "vehiclesUpdate" (store "vehicles")]
  | "drivers" => [.storeFetch "drivers", .emitEvt "driversUpdate" (store "drivers")]
  | "dashboard" => [.storeFetch "dashboardStats", .emitEvt "dashboardStats" (store "dashboardStats")]
  | "rides" => [.storeFetch "rides", .emitEvt "ridesUpdate" (store "rides")]
  | "admin-management" => [.storeFetch "admins", .emitEvt "adminsUpdate" (store "admins")]
  | _ => []

/-- One cached-feed block of `sendCachedDataToClient`
(`src/services/reportsSocketService.js` lines 227–250): emit the cached
payload for `key` when present, truthy and valid, else nothing — and never
touch the store. -/
def cachedSend (cache : ReportsCache) (key : String) (feedKind : String)
    (evt : String) : List RTEffect :=
  match cacheGet cache key with
  | some v => if v.jsTruthy && isValidData v feedKind then [RTEffect.emitEvt evt v] else []
  | none => []

/-- Embedding of `sendCachedDataToClient(socket)`: the summary, earnings and
driver-performance cache entries are offered to the newly connected client,
in that order. -/
def sendCachedDataToClient (cache : ReportsCache) : List RTEffect :=
  cachedSend cache "reportsSummary" "summary" "reportsSummaryData"
    ++ cachedSend cache "earningsReport" "earnings" "earningsReportData"
    ++ cachedSend cache "driverPerformance" "drivers" "driverPerformanceData"

/-- Concrete store listing used by the C6 counterexample. -/
def c6StoreEx : String → JSVal := fun _ => JSVal.arr []

/-- Claim C6 counterexample: joining any of the five feed rooms always
performs a store round trip before the first send (the first effect is the
fetch, and what is then emitted is the fresh fetch result, not a cached
snapshot), and joining the `reports` room — the only feed that has a
snapshot cache — sends nothing at all on join (the cached send happens on
connection instead). -/
theorem claim_C6_counterexample :
    (sendRoomData c6StoreEx "vehicles").head? = some (RTEffect.storeFetch "vehicles")
    ∧ (sendRoomData c6StoreEx "drivers").head? = some (RTEffect.storeFetch "drivers")
    ∧ (sendRoomData c6StoreEx "dashboard").head? = some (RTEffect.storeFetch "dashboardStats")
    ∧ (sendRoomData c6StoreEx "rides").head? = some (RTEffect.storeFetch "rides")
    ∧ (sendRoomData c6StoreEx "admin-management").head? = some (RTEffect.storeFetch "admins")
    ∧ sendRoomData c6StoreEx "reports" = [] := ⟨rfl, rfl, rfl, rfl, rfl, rfl⟩

/-- Auxiliary: when the entry is cached, truthy and valid, the cached-feed
block is exactly the one emission of the cached payload. -/
theorem cachedSend_pos (cache : ReportsCache) (key feedKind evt : String) (v : JSVal)
    (hV : cacheGet cache key = some v)
    (hval : (v.jsTruthy && isValidData v feedKind) = true) :
    cachedSend cache key feedKind evt = [RTEffect.emitEvt evt v] := by
  unfold cachedSend
  rw [hV]
  show (if (v.jsTruthy && isValidData v feedKind) = true
      then [RTEffect.emitEvt evt v] else []) = [RTEffect.emitEvt evt v]
  rw [if_pos hval]

/-- Auxiliary: a cached-feed block contains no store fetch. -/
theorem cachedSend_no_fetch (cache : ReportsCache) (key feedKind evt : String) :
    ∀ e ∈ cachedSend cache key feedKind evt, e.isStoreFetch = false := by
  intro e he
  unfold cachedSend at he
  cases ho : cacheGet cache key with
  | none => rw [ho] at he; simp at he
  | some v =>
    rw [ho] at he
    have he' : e ∈ (if (v.jsTruthy && isValidData v feedKind) = true
        then [RTEffect.emitEvt evt v] else []) := he
    by_cases hv : (v.jsTruthy && isValidData v feedKind) = true
    · rw [if_pos hv] at he'
      simp only [List.mem_singleton] at he'
      rw [he']
      rfl
    · rw [if_neg hv] at he'
      simp at he'

/-- Claim C6 amended: the immediate cached-snapshot send exists only in the
reports service and fires on socket connection, not on room join —
`sendCachedDataToClient` performs no store round trip and, when the summary
cache holds a truthy valid snapshot, that snapshot is the first thing sent;
whereas the `join-room` path (`sendRoomData`) always performs a fresh store
fetch before its first send for every one of the five feed-bearing rooms
(`vehicles`, `drivers`, `dashboard`, `rides`, `admin-management`). -/
theorem claim_C6_amended (store : String → JSVal) (cache : ReportsCache) (V : JSVal)
    (hV : cacheGet cache "reportsSummary" = some V)
    (hval : (V.jsTruthy && isValidData V "summary") = true) :
    ((sendRoomData store "vehicles").head? = some (RTEffect.storeFetch "vehicles")
      ∧ (sendRoomData store "drivers").head? = some (RTEffect.storeFetch "drivers")
      ∧ (sendRoomData store "dashboard").head? = some (RTEffect.storeFetch "dashboardStats")
      ∧ (sendRoomData store "rides").head? = some (RTEffect.storeFetch "rides")
      ∧ (sendRoomData store "admin-management").head? = some (RTEffect.storeFetch "admins"))
    ∧ (∀ e ∈ sendCachedDataToClient cache, e.isStoreFetch = false)
    ∧ (sendCachedDataToClient cache).head? = some (RTEffect.emitEvt "reportsSummaryData" V) := by
  refine ⟨⟨rfl, rfl, rfl, rfl, rfl⟩, ?_, ?_⟩
  · intro e he
    unfold sendCachedDataToClient at he
    rw [List.mem_append, List.mem_append] at he
    rcases he with (he | he) | he
    · exact cachedSend_no_fetch cache "reportsSummary" "summary" "reportsSummaryData" e he
    · exact cachedSend_no_fetch cache "earningsReport" "earnings" "earningsReportData" e he
    · exact cachedSend_no_fetch cache "driverPerformance" "drivers" "driverPerformanceData" e he
  · unfold sendCachedDataToClient
    rw [cachedSend_pos cache "reportsSummary" "summary" "reportsSummaryData" V hV hval]
    rfl

/-- Concrete cache for the C6 witness: a valid summary snapshot is cached. -/
def c6CacheEx : ReportsCache :=
  [("reportsSummary", JSVal.obj [("totalEarnings", JSVal.num 12), ("totalRides", JSVal.num 3)])]

/-- Witness for claim C6's amended theorem: with a cached valid summary, the
connection-time send starts with that snapshot and performs no store fetch,
while the vehicles- and drivers-room joins each start with a store fetch. -/
theorem claim_C6_amended_witness :
    cacheGet c6CacheEx "reportsSummary"
        = some (JSVal.obj [("totalEarnings", JSVal.num 12), ("totalRides", JSVal.num 3)])
    ∧ (sendRoomData c6StoreEx "vehicles").head? = some (RTEffect.storeFetch "vehicles")
    ∧ (sendRoomData c6StoreEx "drivers").head? = some (RTEffect.storeFetch "drivers")
    ∧ (sendCachedDataToClient c6CacheEx).head?
        = some (RTEffect.emitEvt "reportsSummaryData"
            (JSVal.obj [("totalEarnings", JSVal.num 12), ("totalRides", JSVal.num 3)])) := by
  have h := claim_C6_amended c6StoreEx c6CacheEx
    (JSVal.obj [("totalEarnings", JSVal.num 12), ("totalRides", JSVal.num 3)]) rfl rfl
  exact ⟨rfl, h.1.1, h.1.2.1, h.2.2⟩
